import Mathlib

/-!
Verification of `serde/src/ser/impossible.rs`: the uninhabited placeholder
type `Impossible<Ok, E>` and its seven compound-serialization trait
implementations, shallowly embedded in Lean.
-/

namespace Serde

/-- The zero-variant enum from impossible.rs: `enum Void {}`. It has no
constructors, hence no values. -/
inductive Void : Type

/-- Rust's `PhantomData<T>`: a zero-sized marker type recording a type
parameter, carrying no data. -/
structure PhantomData (α : Type) : Type

/-- Rust's `Result<T, E>` with constructors `Ok` and `Err`. -/
inductive Result (T E : Type) : Type where
  | Ok : T → Result T E
  | Err : E → Result T E

/-- The placeholder type from impossible.rs:
`pub struct Impossible<Ok, E> { void: Void, _marker: PhantomData<(Ok, E)> }`. -/
structure Impossible (Ok E : Type) : Type where
  void : Void
  _marker : PhantomData (Ok × E)

/-- Modelled from the spec: the element-serialization contract (the
`Serialize` trait), referenced by impossible.rs only as a bound
`T: ?Sized + Serialize` on element types; its members are irrelevant here,
so it is an abstract capability. -/
class Serialize (T : Type) : Type

/-- Modelled from the spec: the backend error trait `ser::Error`, referenced
by impossible.rs only as the where-clause bound `E: ser::Error`; its one
capability is constructing an error from a message. -/
class ser.Error (E : Type) : Type where
  custom : String → E

/-- Modelled from the spec: the sequence compound-handle capability
(`SerializeSeq`), with associated success/error types, one append
operation generic over serializable elements, and one finish operation. -/
class SerializeSeq (S : Type) : Type 1 where
  Ok : Type
  Error : Type
  serialize_element : {T : Type} → [Serialize T] → S → T → Result Unit Error
  «end» : S → Result Ok Error

/-- Modelled from the spec: the tuple compound-handle capability
(`SerializeTuple`). -/
class SerializeTuple (S : Type) : Type 1 where
  Ok : Type
  Error : Type
  serialize_element : {T : Type} → [Serialize T] → S → T → Result Unit Error
  «end» : S → Result Ok Error

/-- Modelled from the spec: the tuple-struct compound-handle capability
(`SerializeTupleStruct`). -/
class SerializeTupleStruct (S : Type) : Type 1 where
  Ok : Type
  Error : Type
  serialize_field : {T : Type} → [Serialize T] → S → T → Result Unit Error
  «end» : S → Result Ok Error

/-- Modelled from the spec: the tuple-variant compound-handle capability
(`SerializeTupleVariant`). -/
class SerializeTupleVariant (S : Type) : Type 1 where
  Ok : Type
  Error : Type
  serialize_field : {T : Type} → [Serialize T] → S → T → Result Unit Error
  «end» : S → Result Ok Error

/-- Modelled from the spec: the map compound-handle capability
(`SerializeMap`), with two independent append operations, one for keys and
one for values. -/
class SerializeMap (S : Type) : Type 1 where
  Ok : Type
  Error : Type
  serialize_key : {T : Type} → [Serialize T] → S → T → Result Unit Error
  serialize_value : {T : Type} → [Serialize T] → S → T → Result Unit Error
  «end» : S → Result Ok Error

/-- Modelled from the spec: the struct compound-handle capability
(`SerializeStruct`); its append operation takes a static field name and a
value. -/
class SerializeStruct (S : Type) : Type 1 where
  Ok : Type
  Error : Type
  serialize_field : {T : Type} → [Serialize T] → S → String → T → Result Unit Error
  «end» : S → Result Ok Error

/-- Modelled from the spec: the struct-variant compound-handle capability
(`SerializeStructVariant`). -/
class SerializeStructVariant (S : Type) : Type 1 where
  Ok : Type
  Error : Type
  serialize_field : {T : Type} → [Serialize T] → S → String → T → Result Unit Error
  «end» : S → Result Ok Error

/-- The impl `SerializeSeq for Impossible<Ok, E> where E: ser::Error`;
every method body is `match self.void {}`. -/
instance instImpossibleSerializeSeq {Ok E : Type} [ser.Error E] :
    SerializeSeq (Impossible Ok E) where
  Ok := Ok
  Error := E
  serialize_element := fun self _value => nomatch self.void
  «end» := fun self => nomatch self.void

/-- The impl `SerializeTuple for Impossible<Ok, E> where E: ser::Error`. -/
instance instImpossibleSerializeTuple {Ok E : Type} [ser.Error E] :
    SerializeTuple (Impossible Ok E) where
  Ok := Ok
  Error := E
  serialize_element := fun self _value => nomatch self.void
  «end» := fun self => nomatch self.void

/-- The impl `SerializeTupleStruct for Impossible<Ok, E> where E: ser::Error`. -/
instance instImpossibleSerializeTupleStruct {Ok E : Type} [ser.Error E] :
    SerializeTupleStruct (Impossible Ok E) where
  Ok := Ok
  Error := E
  serialize_field := fun self _value => nomatch self.void
  «end» := fun self => nomatch self.void

/-- The impl `SerializeTupleVariant for Impossible<Ok, E> where E: ser::Error`. -/
instance instImpossibleSerializeTupleVariant {Ok E : Type} [ser.Error E] :
    SerializeTupleVariant (Impossible Ok E) where
  Ok := Ok
  Error := E
  serialize_field := fun self _value => nomatch self.void
  «end» := fun self => nomatch self.void

/-- The impl `SerializeMap for Impossible<Ok, E> where E: ser::Error`. -/
instance instImpossibleSerializeMap {Ok E : Type} [ser.Error E] :
    SerializeMap (Impossible Ok E) where
  Ok := Ok
  Error := E
  serialize_key := fun self _key => nomatch self.void
  serialize_value := fun self _value => nomatch self.void
  «end» := fun self => nomatch self.void

/-- The impl `SerializeStruct for Impossible<Ok, E> where E: ser::Error`. -/
instance instImpossibleSerializeStruct {Ok E : Type} [ser.Error E] :
    SerializeStruct (Impossible Ok E) where
  Ok := Ok
  Error := E
  serialize_field := fun self _key _value => nomatch self.void
  «end» := fun self => nomatch self.void

/-- The impl `SerializeStructVariant for Impossible<Ok, E> where E: ser::Error`. -/
instance instImpossibleSerializeStructVariant {Ok E : Type} [ser.Error E] :
    SerializeStructVariant (Impossible Ok E) where
  Ok := Ok
  Error := E
  serialize_field := fun self _key _value => nomatch self.void
  «end» := fun self => nomatch self.void

/-- C1: for every choice of the type parameters, the placeholder type
`Impossible Ok E` is uninhabited: it contains a field of the zero-variant
type `Void`, so no value of it can ever exist. -/
theorem impossible_uninhabited (Ok E : Type) : IsEmpty (Impossible Ok E) :=
  ⟨fun x => nomatch x.void⟩

/-- C2: under the (unsatisfiable) precondition that a receiver value of
`Impossible Ok E` exists, every capability method of every one of the seven
trait implementations vacuously satisfies an arbitrary postcondition: each
body is an exhaustive zero-arm case analysis on the uninhabited `void`
field, so no method ever executes. -/
theorem impossible_methods_vacuous (Ok E T : Type) [ser.Error E] [Serialize T]
    (s : Impossible Ok E) (v : T) (key : String) :
    (∀ P : Result Unit E → Prop, P (SerializeSeq.serialize_element s v))
  ∧ (∀ P : Result Ok E → Prop, P (SerializeSeq.«end» s))
  ∧ (∀ P : Result Unit E → Prop, P (SerializeTuple.serialize_element s v))
  ∧ (∀ P : Result Ok E → Prop, P (SerializeTuple.«end» s))
  ∧ (∀ P : Result Unit E → Prop, P (SerializeTupleStruct.serialize_field s v))
  ∧ (∀ P : Result Ok E → Prop, P (SerializeTupleStruct.«end» s))
  ∧ (∀ P : Result Unit E → Prop, P (SerializeTupleVariant.serialize_field s v))
  ∧ (∀ P : Result Ok E → Prop, P (SerializeTupleVariant.«end» s))
  ∧ (∀ P : Result Unit E → Prop, P (SerializeMap.serialize_key s v))
  ∧ (∀ P : Result Unit E → Prop, P (SerializeMap.serialize_value s v))
  ∧ (∀ P : Result Ok E → Prop, P (SerializeMap.«end» s))
  ∧ (∀ P : Result Unit E → Prop, P (SerializeStruct.serialize_field s key v))
  ∧ (∀ P : Result Ok E → Prop, P (SerializeStruct.«end» s))
  ∧ (∀ P : Result Unit E → Prop, P (SerializeStructVariant.serialize_field s key v))
  ∧ (∀ P : Result Ok E → Prop, P (SerializeStructVariant.«end» s)) :=
  nomatch s.void

/-- C3: `Impossible Ok E` implements all seven compound-handle capability
interfaces: `SerializeSeq`, `SerializeTuple`, `SerializeTupleStruct`,
`SerializeTupleVariant`, `SerializeMap`, `SerializeStruct`, and
`SerializeStructVariant`. -/
theorem impossible_implements_all_seven (Ok E : Type) [ser.Error E] :
    Nonempty (SerializeSeq (Impossible Ok E))
  ∧ Nonempty (SerializeTuple (Impossible Ok E))
  ∧ Nonempty (SerializeTupleStruct (Impossible Ok E))
  ∧ Nonempty (SerializeTupleVariant (Impossible Ok E))
  ∧ Nonempty (SerializeMap (Impossible Ok E))
  ∧ Nonempty (SerializeStruct (Impossible Ok E))
  ∧ Nonempty (SerializeStructVariant (Impossible Ok E)) :=
  ⟨⟨inferInstance⟩, ⟨inferInstance⟩, ⟨inferInstance⟩, ⟨inferInstance⟩,
   ⟨inferInstance⟩, ⟨inferInstance⟩, ⟨inferInstance⟩⟩

/-- C4: every append-style method of `Impossible Ok E` is a function into
`Result Unit E` (a plain no-value success result), every finish method is a
function into `Result Ok E`, and the map capability provides two separate
append operations, `serialize_key` and `serialize_value`; each equality
below only type-checks at the stated function type. -/
theorem impossible_method_signatures (Ok E T : Type) [ser.Error E] [Serialize T] :
    ((SerializeSeq.serialize_element (S := Impossible Ok E) (T := T))
      = fun (s : Impossible Ok E) (_v : T) => (nomatch s.void : Result Unit E))
  ∧ ((SerializeSeq.«end» (S := Impossible Ok E))
      = fun (s : Impossible Ok E) => (nomatch s.void : Result Ok E))
  ∧ ((SerializeTuple.serialize_element (S := Impossible Ok E) (T := T))
      = fun (s : Impossible Ok E) (_v : T) => (nomatch s.void : Result Unit E))
  ∧ ((SerializeTuple.«end» (S := Impossible Ok E))
      = fun (s : Impossible Ok E) => (nomatch s.void : Result Ok E))
  ∧ ((SerializeTupleStruct.serialize_field (S := Impossible Ok E) (T := T))
      = fun (s : Impossible Ok E) (_v : T) => (nomatch s.void : Result Unit E))
  ∧ ((SerializeTupleStruct.«end» (S := Impossible Ok E))
      = fun (s : Impossible Ok E) => (nomatch s.void : Result Ok E))
  ∧ ((SerializeTupleVariant.serialize_field (S := Impossible Ok E) (T := T))
      = fun (s : Impossible Ok E) (_v : T) => (nomatch s.void : Result Unit E))
  ∧ ((SerializeTupleVariant.«end» (S := Impossible Ok E))
      = fun (s : Impossible Ok E) => (nomatch s.void : Result Ok E))
  ∧ ((SerializeMap.serialize_key (S := Impossible Ok E) (T := T))
      = fun (s : Impossible Ok E) (_k : T) => (nomatch s.void : Result Unit E))
  ∧ ((SerializeMap.serialize_value (S := Impossible Ok E) (T := T))
      = fun (s : Impossible Ok E) (_v : T) => (nomatch s.void : Result Unit E))
  ∧ ((SerializeMap.«end» (S := Impossible Ok E))
      = fun (s : Impossible Ok E) => (nomatch s.void : Result Ok E))
  ∧ ((SerializeStruct.serialize_field (S := Impossible Ok E) (T := T))
      = fun (s : Impossible Ok E) (_key : String) (_v : T) => (nomatch s.void : Result Unit E))
  ∧ ((SerializeStruct.«end» (S := Impossible Ok E))
      = fun (s : Impossible Ok E) => (nomatch s.void : Result Ok E))
  ∧ ((SerializeStructVariant.serialize_field (S := Impossible Ok E) (T := T))
      = fun (s : Impossible Ok E) (_key : String) (_v : T) => (nomatch s.void : Result Unit E))
  ∧ ((SerializeStructVariant.«end» (S := Impossible Ok E))
      = fun (s : Impossible Ok E) => (nomatch s.void : Result Ok E)) :=
  ⟨(funext fun s => funext fun _ => nomatch s.void),
   (funext fun s => nomatch s.void),
   (funext fun s => funext fun _ => nomatch s.void),
   (funext fun s => nomatch s.void),
   (funext fun s => funext fun _ => nomatch s.void),
   (funext fun s => nomatch s.void),
   (funext fun s => funext fun _ => nomatch s.void),
   (funext fun s => nomatch s.void),
   (funext fun s => funext fun _ => nomatch s.void),
   (funext fun s => funext fun _ => nomatch s.void),
   (funext fun s => nomatch s.void),
   (funext fun s => funext fun _ => funext fun _ => nomatch s.void),
   (funext fun s => nomatch s.void),
   (funext fun s => funext fun _ => funext fun _ => nomatch s.void),
   (funext fun s => nomatch s.void)⟩

/-- C5: in every one of the seven capability implementations for
`Impossible Ok E`, the associated success type is exactly `Ok` and the
associated error type is exactly `E`, with no coercion. -/
theorem impossible_type_agreement (Ok E : Type) [ser.Error E] :
    SerializeSeq.Ok (S := Impossible Ok E) = Ok
  ∧ SerializeSeq.Error (S := Impossible Ok E) = E
  ∧ SerializeTuple.Ok (S := Impossible Ok E) = Ok
  ∧ SerializeTuple.Error (S := Impossible Ok E) = E
  ∧ SerializeTupleStruct.Ok (S := Impossible Ok E) = Ok
  ∧ SerializeTupleStruct.Error (S := Impossible Ok E) = E
  ∧ SerializeTupleVariant.Ok (S := Impossible Ok E) = Ok
  ∧ SerializeTupleVariant.Error (S := Impossible Ok E) = E
  ∧ SerializeMap.Ok (S := Impossible Ok E) = Ok
  ∧ SerializeMap.Error (S := Impossible Ok E) = E
  ∧ SerializeStruct.Ok (S := Impossible Ok E) = Ok
  ∧ SerializeStruct.Error (S := Impossible Ok E) = E
  ∧ SerializeStructVariant.Ok (S := Impossible Ok E) = Ok
  ∧ SerializeStructVariant.Error (S := Impossible Ok E) = E :=
  ⟨rfl, rfl, rfl, rfl, rfl, rfl, rfl, rfl, rfl, rfl, rfl, rfl, rfl, rfl⟩

/-- C6: no capability method of `Impossible Ok E` ever returns an `Err`
value: for any (necessarily nonexistent) receiver, every method application
is distinct from `Result.Err e` for every error `e`. -/
theorem impossible_no_error_values (Ok E T : Type) [ser.Error E] [Serialize T]
    (s : Impossible Ok E) (v : T) (key : String) (e : E) :
    SerializeSeq.serialize_element s v ≠ Result.Err e
  ∧ SerializeSeq.«end» s ≠ Result.Err e
  ∧ SerializeTuple.serialize_element s v ≠ Result.Err e
  ∧ SerializeTuple.«end» s ≠ Result.Err e
  ∧ SerializeTupleStruct.serialize_field s v ≠ Result.Err e
  ∧ SerializeTupleStruct.«end» s ≠ Result.Err e
  ∧ SerializeTupleVariant.serialize_field s v ≠ Result.Err e
  ∧ SerializeTupleVariant.«end» s ≠ Result.Err e
  ∧ SerializeMap.serialize_key s v ≠ Result.Err e
  ∧ SerializeMap.serialize_value s v ≠ Result.Err e
  ∧ SerializeMap.«end» s ≠ Result.Err e
  ∧ SerializeStruct.serialize_field s key v ≠ Result.Err e
  ∧ SerializeStruct.«end» s ≠ Result.Err e
  ∧ SerializeStructVariant.serialize_field s key v ≠ Result.Err e
  ∧ SerializeStructVariant.«end» s ≠ Result.Err e :=
  nomatch s.void

/-- C7: any value of type `Result (Impossible Ok E) E` — the return type of a
begin-compound operation whose handle type is the placeholder — is an `Err`:
the `Ok` branch would require a placeholder instance, which cannot exist, so
the operation fails immediately and never hands out a handle. -/
theorem begin_compound_only_error (Ok E : Type) (r : Result (Impossible Ok E) E) :
    (∃ e : E, r = Result.Err e) ∧ ∀ h : Impossible Ok E, r ≠ Result.Ok h :=
  match r with
  | Result.Ok h => nomatch h.void
  | Result.Err e => ⟨⟨e, rfl⟩, fun h _ => nomatch h.void⟩

/-- C8: every append-style method of `Impossible Ok E` is generic over an
arbitrary element type `T` carrying any `Serialize` evidence: it is defined
at every such `T` and does not depend on which `Serialize` instance `T`
carries. -/
theorem impossible_append_generic (Ok E T : Type) [ser.Error E]
    (i j : Serialize T) :
    @SerializeSeq.serialize_element (Impossible Ok E) instImpossibleSerializeSeq T i
      = @SerializeSeq.serialize_element (Impossible Ok E) instImpossibleSerializeSeq T j
  ∧ @SerializeTuple.serialize_element (Impossible Ok E) instImpossibleSerializeTuple T i
      = @SerializeTuple.serialize_element (Impossible Ok E) instImpossibleSerializeTuple T j
  ∧ @SerializeTupleStruct.serialize_field (Impossible Ok E) instImpossibleSerializeTupleStruct T i
      = @SerializeTupleStruct.serialize_field (Impossible Ok E) instImpossibleSerializeTupleStruct T j
  ∧ @SerializeTupleVariant.serialize_field (Impossible Ok E) instImpossibleSerializeTupleVariant T i
      = @SerializeTupleVariant.serialize_field (Impossible Ok E) instImpossibleSerializeTupleVariant T j
  ∧ @SerializeMap.serialize_key (Impossible Ok E) instImpossibleSerializeMap T i
      = @SerializeMap.serialize_key (Impossible Ok E) instImpossibleSerializeMap T j
  ∧ @SerializeMap.serialize_value (Impossible Ok E) instImpossibleSerializeMap T i
      = @SerializeMap.serialize_value (Impossible Ok E) instImpossibleSerializeMap T j
  ∧ @SerializeStruct.serialize_field (Impossible Ok E) instImpossibleSerializeStruct T i
      = @SerializeStruct.serialize_field (Impossible Ok E) instImpossibleSerializeStruct T j
  ∧ @SerializeStructVariant.serialize_field (Impossible Ok E) instImpossibleSerializeStructVariant T i
      = @SerializeStructVariant.serialize_field (Impossible Ok E) instImpossibleSerializeStructVariant T j :=
  ⟨rfl, rfl, rfl, rfl, rfl, rfl, rfl, rfl⟩

/-- C10: the type `Impossible Ok E` exists and is uninhabited for every `E`,
with no `ser.Error` requirement; each of the seven capability
implementations is available under the hypothesis that `E` carries the
`ser.Error` capability — the hypothesis the source states as the
where-clause `E: ser::Error`. -/
theorem impossible_capabilities_conditional (Ok E : Type) :
    IsEmpty (Impossible Ok E)
  ∧ (∀ _h : ser.Error E,
        Nonempty (SerializeSeq (Impossible Ok E))
      ∧ Nonempty (SerializeTuple (Impossible Ok E))
      ∧ Nonempty (SerializeTupleStruct (Impossible Ok E))
      ∧ Nonempty (SerializeTupleVariant (Impossible Ok E))
      ∧ Nonempty (SerializeMap (Impossible Ok E))
      ∧ Nonempty (SerializeStruct (Impossible Ok E))
      ∧ Nonempty (SerializeStructVariant (Impossible Ok E))) :=
  ⟨⟨fun x => nomatch x.void⟩,
   fun h =>
     letI := h
     ⟨⟨inferInstance⟩, ⟨inferInstance⟩, ⟨inferInstance⟩, ⟨inferInstance⟩,
      ⟨inferInstance⟩, ⟨inferInstance⟩, ⟨inferInstance⟩⟩⟩

end Serde
